import Mathlib

/-!
Shallow embedding of the KubeStellar Slack bot (`app.py`) and proofs about
its command-dispatch and message-composition engine.

Python strings are embedded as Lean `String`; Python `dict.get(k, d)` on the
configuration JSON is embedded as `Option.getD`; Python exceptions are
embedded as `Except PyError`; the external `maintainers.json` file is
embedded as a `ConfigSource` state (missing / malformed / parsed contents),
matching the three branches of `load_maintainers_config`'s try/except.
Apostrophes inside message texts are written via `apos` (`Char.ofNat 39`).
-/

/-- The apostrophe character, as a one-character string. -/
def apos : String := String.singleton (Char.ofNat 39)

/-- Embedding of Python `str.startswith(p)`: a prefix test on the
character sequences. -/
def pyStartswith (s p : String) : Bool := p.data.isPrefixOf s.data

/-- Embedding of Python `str.strip()`: remove leading and trailing
whitespace. -/
def pyStrip (s : String) : String :=
  ⟨((s.data.dropWhile Char.isWhitespace).reverse.dropWhile Char.isWhitespace).reverse⟩

/-- Embedding of Python `sep.join(xs)`: concatenate `xs` with `sep`
between consecutive elements. -/
def pyJoin (sep : String) (xs : List String) : String :=
  ⟨List.intercalate sep.data (xs.map String.data)⟩

/-- Helper for `pyTitle`: the Boolean argument records whether the previous
character was alphabetic. -/
def pyTitleAux : Bool → List Char → List Char
  | _, [] => []
  | prevAlpha, c :: cs =>
    (if c.isAlpha then (if prevAlpha then c.toLower else c.toUpper) else c)
      :: pyTitleAux c.isAlpha cs

/-- Embedding of Python `str.title()` (for the ASCII project keys the bot
uses): the first letter of every alphabetic run is uppercased and the rest
lowercased. -/
def pyTitle (s : String) : String := ⟨pyTitleAux false s.data⟩

/-- Embedding of Python `str.replace("_", " ")` (single-character pattern,
hence a character map). -/
def pyUnderscoreToSpace (s : String) : String :=
  ⟨s.data.map (fun c => if c = '_' then ' ' else c)⟩

/-- Python `str(x)` of an optional string, as rendered inside f-strings:
`None` prints as `"None"`. -/
def pyStr : Option String → String
  | none => "None"
  | some s => s

/-- Substring test on character lists: `hasSub pat l` is true when `pat`
occurs contiguously inside `l`. -/
def hasSub (pat : List Char) : List Char → Bool
  | [] => pat.isEmpty
  | c :: rest => pat.isPrefixOf (c :: rest) || hasSub pat rest

/-- A Python exception escaping a function.  The only exception the
composers can raise is the `NameError` from the malformed f-string
`{https://github.com/clubanderson}` in `create_project_blocks`
(app.py line 146), which evaluates the undefined name `https`. -/
inductive PyError where
  | nameError (name : String)
deriving DecidableEq

/-- One project entry of `maintainers.json`.  Every field is optional, as
in the JSON source; readers supply defaults via `Option.getD`, embedding
Python `dict.get(key, default)`. -/
structure ProjectInfo where
  project_name : Option String
  docs_url : Option String
  github_url : Option String
  description : Option String
  maintainers : Option (List String)
deriving DecidableEq

/-- The `organization` object of `maintainers.json`; all fields optional. -/
structure OrgInfo where
  name : Option String
  website : Option String
  docs : Option String
  github : Option String
deriving DecidableEq

/-- The parsed `maintainers.json` document.  `projects` is an insertion
ordered key/value sequence (Python dicts preserve insertion order); either
top-level key may be absent. -/
structure Config where
  projects : Option (List (String × ProjectInfo))
  organization : Option OrgInfo
deriving DecidableEq

/-- The project entry Python's `{}` denotes: a mapping with no fields. -/
def emptyProjectInfo : ProjectInfo := ⟨none, none, none, none, none⟩

/-- The organization entry Python's `{}` denotes. -/
def emptyOrgInfo : OrgInfo := ⟨none, none, none, none⟩

/-- The state of the external `maintainers.json` file at the moment a
request is handled: absent, unparseable, or parsed contents. -/
inductive ConfigSource where
  | missing
  | malformed
  | ok (c : Config)
deriving DecidableEq

/-- Embedding of `load_maintainers_config` (app.py 20-38).  The function
never propagates an exception: `FileNotFoundError` yields the built-in
default config (a single "default" project with hardcoded URLs and the
one-element maintainer list), `json.JSONDecodeError` yields
`{"projects": {}}`, and a successful parse is returned verbatim. -/
def load_maintainers_config : ConfigSource → Config
  | .missing =>
    ⟨some [("default",
      ⟨none,
       some "https://docs.kubestellar.io/",
       some "https://github.com/kubestellar/kubestellar",
       none,
       some ["Andy Anderson"]⟩)],
     none⟩
  | .malformed => ⟨some [], none⟩
  | .ok c => c

/-- Embedding of `get_project_info` (app.py 41-46):
`config.get("projects", {}).get(key, config.get("projects", {}).get("default", {}))`. -/
def get_project_info (src : ConfigSource) (project_key : String) : ProjectInfo :=
  let config := load_maintainers_config src
  ((config.projects.getD []).lookup project_key).getD
    (((config.projects.getD []).lookup "default").getD emptyProjectInfo)

/-- The per-maintainer step of `format_maintainers` (app.py 56-60): prefix
`"@"` unless the entry already starts with `"@"`. -/
def addAt (maintainer : String) : String :=
  if pyStartswith maintainer "@" then maintainer else "@" ++ maintainer

/-- Embedding of `format_maintainers` (app.py 49-62). -/
def format_maintainers (maintainers_list : List String) : String :=
  if maintainers_list.isEmpty then "No maintainers assigned"
  else pyJoin ", " (maintainers_list.map addAt)

/-- A button element of an `actions` block: its label, optional style, and
target URL. -/
structure Button where
  text : String
  style : Option String
  url : String
deriving DecidableEq

/-- The Slack Block Kit elements the bot emits, as a tagged variant
(header / markdown section / field list / divider / button row / context
line). -/
inductive Block where
  | header (text : String)
  | sect (text : String)
  | fields (texts : List String)
  | divider
  | actions (buttons : List Button)
  | context (text : String)
deriving DecidableEq

/-- Display name of a project: `project_name` if configured, else the key
with underscores replaced by spaces and title-cased (app.py 314-316 and
426-428). -/
def project_display_name (project_key : String) (pd : ProjectInfo) : String :=
  pd.project_name.getD (pyTitle (pyUnderscoreToSpace project_key))

/-- The text of a per-project maintainer line,
`f"*{project_name}:* {maintainers}"` (app.py 321 and 433). -/
def maintainer_line_text (name maint : String) : String :=
  "*" ++ name ++ ":* " ++ maint

/-- The per-project maintainer block appended by the help and meeting
composers (app.py 312-323 and 424-435). -/
def project_maintainer_line (p : String × ProjectInfo) : Block :=
  Block.sect (maintainer_line_text (project_display_name p.1 p.2)
    (format_maintainers (p.2.maintainers.getD [])))

/-- The fixed blocks of the help message built before the per-project loop
(app.py 231-309). -/
def help_base_blocks : List Block :=
  [Block.header "🤖 KubeStellar Bot",
   Block.sect "Your guide to contributing to KubeStellar open source projects!",
   Block.divider,
   Block.sect "🚀 *Project Commands*",
   Block.fields
     ["`/contribute` or `/kubeStellar`\nKubeStellar Core project info",
      "`/kubeflex`\nKubeFlex project contribution guide",
      "`/ui`\nKubeStellar UI project details",
      "`/a2a`\nApp-to-App (A2A) project info"],
   Block.sect "🔧 *Utility Commands*",
   Block.fields
     ["`/know-about-internship`\nOpen source contribution guidance",
      "`/help`\nThis help menu"],
   Block.divider,
   Block.sect "👥 *Project Maintainers & Contacts*\n\nNeed help with a specific project? Tag the right people:"]

/-- The quick-links tail of the help message (app.py 326-393); note the
"✨ Join Us" button reads the `github` org key with a join-us default,
exactly as in the source. -/
def help_tail_blocks (org_info : OrgInfo) : List Block :=
  [Block.divider,
   Block.sect "🌟 *Quick Links*",
   Block.actions
     [⟨"🌐 Website", some "primary", org_info.website.getD "https://kubestellar.io"⟩,
      ⟨"📖 Documentation", none, org_info.docs.getD "https://docs.kubestellar.io"⟩,
      ⟨"🔗 GitHub Org", none, org_info.github.getD "https://github.com/kubestellar"⟩,
      ⟨"✨ Join Us", none, org_info.github.getD "http://kubestellar.io/join_us"⟩],
   Block.context "💡 *Pro Tip:* Start with `/contribute` to get familiar with our main project, then explore specific components!",
   Block.context "🚀 *Welcome to the KubeStellar community!*"]

/-- Embedding of `create_help_blocks` (app.py 225-395): fixed header
blocks, one maintainer line per configured project (insertion order), then
the quick-links tail. -/
def create_help_blocks (src : ConfigSource) (_user_id : String) : List Block :=
  let config := load_maintainers_config src
  let projects := config.projects.getD []
  let org_info := config.organization.getD emptyOrgInfo
  (projects.foldl (fun bs p => bs ++ [project_maintainer_line p]) help_base_blocks)
    ++ help_tail_blocks org_info

/-- The blocks of the meeting message built before the per-project loop
(app.py 403-421). -/
def meeting_intro_blocks (user_id : String) : List Block :=
  [Block.header "🎯 Interested in Joining KubeStellar Community Meeting?",
   Block.sect ("Hi <@" ++ user_id ++
     (">! 🌟 *Welcome to our open source community!* We" ++ apos ++
      "re excited you want to get involved.")),
   Block.divider]

/-- The static meeting-logistics text (join link and agenda document,
app.py 442-447). -/
def meeting_logistics_text : String :=
  "*📅 Community Meeting Info*\n" ++
  "<http://kubestellar.io/join_us|👉 Get an invite by joining our Google Group>\n\n" ++
  "*📝 Agenda & Meeting Notes*\n" ++
  "<https://docs.google.com/document/d/1XppfxSOD7AOX1lVVVIPWjpFkrxakfBfVzcybRg17-PM/|View Document>"

/-- The meeting-logistics section block. -/
def meeting_logistics_block : Block := Block.sect meeting_logistics_text

/-- The quick-links tail of the meeting message (app.py 456-512). -/
def meeting_tail_blocks (org_info : OrgInfo) : List Block :=
  [Block.sect "🌟 *Quick Links*",
   Block.actions
     [⟨"🌐 Website", some "primary", org_info.website.getD "https://kubestellar.io"⟩,
      ⟨"📖 Documentation", none, org_info.docs.getD "https://docs.kubestellar.io"⟩,
      ⟨"🔗 GitHub Org", none, org_info.github.getD "https://github.com/kubestellar"⟩],
   Block.context "💡 *Pro Tip:* Start with `/contribute` to get familiar with our main project, then explore specific components!",
   Block.context "🚀 *Welcome to the KubeStellar community!*"]

/-- Embedding of `create_meeting_blocks` (app.py 397-514).  The
`blocks.extend([...logistics..., divider])` sits INSIDE the per-project
`for` loop in the source, so every iteration appends the maintainer line,
the logistics block, and a divider. -/
def create_meeting_blocks (src : ConfigSource) (user_id : String) : List Block :=
  let config := load_maintainers_config src
  let projects := config.projects.getD []
  let org_info := config.organization.getD emptyOrgInfo
  (projects.foldl
      (fun bs p => (bs ++ [project_maintainer_line p])
        ++ [meeting_logistics_block, Block.divider])
      (meeting_intro_blocks user_id))
    ++ meeting_tail_blocks org_info

/-- Embedding of `create_internship_blocks` (app.py 517-639): static
guidance content; the maintainer tag in its final message is the hardcoded
literal "Andy Anderson". -/
def create_internship_blocks (src : ConfigSource) (user_id : String) : List Block :=
  let _project_info := get_project_info src "default"
  let config := load_maintainers_config src
  let org_info := config.organization.getD emptyOrgInfo
  [Block.header "🎯 Interested in Contributing to KubeStellar?",
   Block.sect ("Hi <@" ++ user_id ++
     (">! 🌟 *Welcome to our open source community!* We" ++ apos ++
      "re excited you want to get involved.")),
   Block.divider,
   Block.sect "🚀 *Getting Started with Open Source Contributions*",
   Block.sect "📋 *Available Projects*\nChoose a project that matches your interests and skills:",
   Block.fields
     ["*KubeStellar Core*\nMulti-cluster Kubernetes management",
      "*KubeFlex*\nFlexible cluster management tools",
      "*KubeStellar UI*\nWeb interface and dashboards",
      "*App-to-App (A2A)*\nCommunication framework"],
   Block.sect "📚 *Essential Resources*",
   Block.actions
     [⟨"📖 Documentation", some "primary", org_info.docs.getD "https://docs.kubestellar.io"⟩,
      ⟨"🔗 GitHub Organization", none, org_info.github.getD "https://github.com/kubestellar"⟩,
      ⟨"🌐 Community Website", none, org_info.website.getD "https://kubestellar.io"⟩],
   Block.sect "🤝 *Need Help?*\n*New to open source?* Perfect! We love helping first-time contributors.\n\n*Questions or need guidance?* Tag: Andy Anderson",
   Block.sect ("💡 *Next Steps*\n1. Pick a project that interests you\n2. Check out the GitHub repository\n3. Look for \"good first issue\" labels\n4. Join our community discussions\n5. Don" ++ apos ++ "t hesitate to ask questions!"),
   Block.context ("🚀✨ *Let" ++ apos ++ "s build something amazing together!*")]

/-- Embedding of `create_project_blocks` (app.py 65-222).  The function
reads its defaults, then builds a list literal whose seventh element
renders the f-string ending in "Tag: ...|Andy>"; the braced part of that
f-string is parsed as the expression named https with format spec
"//github.com/clubanderson", and evaluating the undefined name https
raises NameError (app.py line 146).  The list literal is evaluated before
the function can return, so every call raises; no block list is ever
produced. -/
def create_project_blocks (src : ConfigSource) (_username : Option String)
    (project_info : ProjectInfo) (_command_type : String) :
    Except PyError (List Block) :=
  let _project_name := project_info.project_name.getD "KubeStellar"
  let _docs_url := project_info.docs_url.getD "https://docs.kubestellar.io"
  let _github_url := project_info.github_url.getD "https://github.com/kubestellar/kubestellar"
  let _description := project_info.description.getD
    "A flexible solution for multi-cluster configuration management for edge, multi-cloud, and hybrid cloud."
  let _maintainers := format_maintainers (project_info.maintainers.getD ["Andy"])
  let _org_name := ((load_maintainers_config src).organization.getD emptyOrgInfo).name.getD "KubeStellar"
  Except.error (PyError.nameError "https")

/-- The unknown-command fallback block (app.py 689-697), embedding the
(stripped) command text. -/
def unknown_command_block (command : String) : Block :=
  Block.sect ("❌ Unknown command: `" ++ command ++
    "`\n\nType `/help` to see available commands.")

/-- Embedding of `verify_slack_request` (app.py 878-886): field-presence
check for `command`, `user_id`, `user_name` on the form data. -/
def verify_slack_request (form : List (String × String)) : Bool :=
  ["command", "user_id", "user_name"].all (fun f => (form.lookup f).isSome)

/-- The command branching of `handle_slash_commands` (app.py 659-697),
kept in the source's shape: a lone `if` for "/contribute" whose result is
then shadowed by the `if/elif/.../else` chain that follows it (the chain's
`else` reassigns `blocks` to the unknown-command message whenever the
command is none of its seven cases, "/contribute" included).  An exception
raised by a composer propagates. -/
def dispatch (src : ConfigSource) (command : String) (user_id : Option String) :
    Except PyError (List Block) := do
  let _first ←
    if command = "/contribute" then do
      let b ← create_project_blocks src user_id (get_project_info src "default") "contribute"
      pure (some b)
    else
      pure (none : Option (List Block))
  if command = "/kubestellar" then
    create_project_blocks src user_id (get_project_info src "kubestellar") "kubestellar"
  else if command = "/kubeflex" then
    create_project_blocks src user_id (get_project_info src "kubeflex") "kubeflex"
  else if command = "/ui" then
    create_project_blocks src user_id (get_project_info src "ui") "ui"
  else if command = "/a2a" then
    create_project_blocks src user_id (get_project_info src "a2a") "a2a"
  else if command = "/know-about-internship" then
    pure (create_internship_blocks src (pyStr user_id))
  else if command = "/help" then
    pure (create_help_blocks src (pyStr user_id))
  else if command = "/meeting" then
    pure (create_meeting_blocks src (pyStr user_id))
  else
    pure [unknown_command_block command]

/-- The three HTTP responses of the `/slack/commands` route: 403 invalid
request, 200 in_channel blocks, or the 500 ephemeral apology produced by
the route's catch-all `except`. -/
inductive SlashResponse where
  | invalid
  | channel (blocks : List Block)
  | serverError
deriving DecidableEq

/-- Embedding of `handle_slash_commands` (app.py 642-713): verify field
presence (403 on failure), strip the command, branch, and return the
blocks as a 200 in_channel payload; any exception from composition is
caught and turned into the 500 ephemeral apology. -/
def handle_slash_commands (src : ConfigSource) (form : List (String × String)) :
    SlashResponse :=
  if verify_slack_request form then
    let command := pyStrip ((form.lookup "command").getD "")
    let user_id := form.lookup "user_id"
    match dispatch src command user_id with
    | .ok blocks => .channel blocks
    | .error _ => .serverError
  else
    .invalid

/-- The JSON value of an event's `user` field, which is an object for
`team_join` events and a plain string for `member_joined_channel`
events. -/
inductive UserVal where
  | obj (id : Option String)
  | str (s : String)
deriving DecidableEq

/-- The `event` object of an Events API callback. -/
structure SlackEvent where
  type : Option String
  user : Option UserVal
  channel : Option String
deriving DecidableEq

/-- The body of a `/slack/events` POST. -/
structure EventBody where
  type : Option String
  challenge : Option String
  event : Option SlackEvent
deriving DecidableEq

/-- One outbound `chat_postMessage` call (app.py 863-868). -/
structure SendCall where
  channel : String
  blocks : List Block
  username : String
  icon_emoji : String
deriving DecidableEq

/-- The welcome-DM blocks (app.py 761-860). -/
def welcome_dm_blocks (src : ConfigSource) (user_id : String) : List Block :=
  let config := load_maintainers_config src
  let org_info := config.organization.getD emptyOrgInfo
  let _default_project :=
    ((config.projects.getD []).lookup "default").getD emptyProjectInfo
  [Block.header "🎉 Hey there, welcome to KubeStellar!",
   Block.sect ("Hi <@" ++ user_id ++
     (">! 🌟 *Welcome to our open source community!* We" ++ apos ++
      "re thrilled to have you here.")),
   Block.divider,
   Block.sect "🚀 *Getting Started Guide*\n\n📋 *Explore Our Projects*\nChoose what interests you most:",
   Block.fields
     ["`/contribute`\nKubeStellar Core (multi-cluster management)",
      "`/kubeflex`\nKubeFlex (flexible cluster tools)",
      "`/ui`\nKubeStellar UI (web interfaces)",
      "`/a2a`\nApp-to-App communication framework"],
   Block.actions
     [⟨"📖 Documentation", some "primary", org_info.docs.getD "https://docs.kubestellar.io"⟩,
      ⟨"🔗 GitHub Organization", none, org_info.github.getD "https://github.com/kubestellar"⟩,
      ⟨"🌐 Community Website", none, org_info.website.getD "https://kubestellar.io"⟩],
   Block.sect ("🤝 *Need Help?*\n*New to open source?* Perfect! We" ++ apos ++
     "re here to guide you.\n\n*Have questions?* Use `/help` to see all commands and find the right maintainers to tag."),
   Block.sect ("💡 *Pro Tips for New Contributors*\n1. Start with `/contribute` to understand our main project\n2. Look for \"good first issue\" labels on GitHub\n3. Join our community discussions\n4. Don" ++
     apos ++ "t hesitate to ask questions - we" ++ apos ++ "re friendly! 😊"),
   Block.context ("🚀✨ *Ready to make an impact?* Let" ++ apos ++
     "s build the future of Kubernetes together!\n\n*Happy coding!* 🧰")]

/-- Embedding of `send_welcome_dm` (app.py 754-875): the one
`chat_postMessage` call it performs, addressed to the DM channel
`"@" + user_id`.  Delivery failures are caught and logged inside the
source function, so the call is recorded regardless. -/
def send_welcome_dm (src : ConfigSource) (user_id : String) : SendCall :=
  ⟨"@" ++ user_id, welcome_dm_blocks src user_id, "KubeStellar Bot", ":rocket:"⟩

/-- The JSON response of the `/slack/events` route: an echoed challenge,
`{"status":"ok"}` (200), or `{"status":"error"}` (500). -/
inductive EventsResponse where
  | challenge (c : Option String)
  | ok
  | error
deriving DecidableEq

/-- Result of handling one Events API callback: the HTTP response together
with the outbound send calls performed while handling it. -/
structure EventsResult where
  response : EventsResponse
  sends : List SendCall
deriving DecidableEq

/-- Embedding of `handle_events` (app.py 716-751).  A `url_verification`
body echoes the challenge.  A `team_join` event reads `user.id` and sends
the welcome DM only when the id is truthy (present and non-empty); were
`user` a plain string, `user_info.get("id")` would raise AttributeError,
caught by the route's `except` into the 500 error response.  A
`member_joined_channel` event is logged only.  Anything else is
acknowledged with ok. -/
def handle_events (src : ConfigSource) (data : EventBody) : EventsResult :=
  if data.type = some "url_verification" then
    ⟨.challenge data.challenge, []⟩
  else
    let event := data.event.getD ⟨none, none, none⟩
    match event.type with
    | some "team_join" =>
      match event.user with
      | some (.str _) => ⟨.error, []⟩
      | some (.obj (some uid)) =>
        if uid = "" then ⟨.ok, []⟩ else ⟨.ok, [send_welcome_dm src uid]⟩
      | some (.obj none) => ⟨.ok, []⟩
      | none => ⟨.ok, []⟩
    | some "member_joined_channel" => ⟨.ok, []⟩
    | _ => ⟨.ok, []⟩

/-- The text pieces of a block, for substring ("line segment") search. -/
def blockTexts : Block → List String
  | .header t => [t]
  | .sect t => [t]
  | .fields ts => ts
  | .divider => []
  | .actions bs => bs.flatMap (fun b => [b.text, b.url])
  | .context t => [t]

/-- `containsSegment blocks seg` is true when `seg` occurs contiguously in
some text piece of some block of the message. -/
def containsSegment (blocks : List Block) (seg : String) : Bool :=
  blocks.any (fun b => (blockTexts b).any (fun t => hasSub seg.data t.data))

/-- The two-project configuration of the `/help` scenario in the spec:
`{"kubeflex": {"maintainers": ["alice"]}, "ui": {"maintainers": []}}`. -/
def helpScenarioConfig : ConfigSource :=
  .ok ⟨some
    [("kubeflex", ⟨none, none, none, none, some ["alice"]⟩),
     ("ui", ⟨none, none, none, none, some []⟩)],
    none⟩

/-- A list is a Boolean prefix of itself followed by anything. -/
theorem isPrefixOf_append_self : ∀ (p t : List Char), p.isPrefixOf (p ++ t) = true
  | [], _ => by simp [List.isPrefixOf]
  | a :: as, t => by simp [List.isPrefixOf, isPrefixOf_append_self as t]

/-- `hasSub` finds a pattern planted in the middle of a list. -/
theorem hasSub_append (pat s t : List Char) : hasSub pat (s ++ (pat ++ t)) = true := by
  induction s with
  | nil =>
    rw [List.nil_append]
    cases pat with
    | nil =>
      cases t with
      | nil => rfl
      | cons c cs => simp [hasSub]
    | cons a p2 => simp [hasSub, isPrefixOf_append_self]
  | cons c s2 ih => simp [hasSub, ih]

/-- Two strings with distinct first characters are distinct. -/
theorem string_ne_of_head (s t : String) (c d : Char) (hs : s.data.head? = some c)
    (ht : t.data.head? = some d) (hcd : c ≠ d) : s ≠ t := by
  intro h
  rw [h] at hs
  rw [hs] at ht
  exact hcd (Option.some.inj ht)

/-- No maintainer line can equal the logistics text: every maintainer line
contains the three-character run colon, asterisk, space, and the logistics
text contains no such run. -/
theorem maintainer_text_ne_logistics (n m : String) :
    maintainer_line_text n m ≠ meeting_logistics_text := by
  intro h
  have h2 := congrArg String.data h
  rw [maintainer_line_text] at h2
  rw [String.data_append, String.data_append, String.data_append] at h2
  have e : (":* ").data = [':', '*', ' '] := rfl
  rw [e] at h2
  have h3 : hasSub [':', '*', ' '] meeting_logistics_text.data = true := by
    rw [← h2]
    have h4 := hasSub_append [':', '*', ' '] ("*".data ++ n.data) m.data
    rw [List.append_assoc]
    exact h4
  have h5 : hasSub [':', '*', ' '] meeting_logistics_text.data = false := by decide
  rw [h3] at h5
  exact absurd h5 (by decide)

/-- The meeting composer's per-project loop, written as a fold in
`create_meeting_blocks`, appends one maintainer line, one logistics block
and one divider per project. -/
theorem meeting_foldl_eq (l : List (String × ProjectInfo)) (init : List Block) :
    l.foldl
      (fun bs p => (bs ++ [project_maintainer_line p])
        ++ [meeting_logistics_block, Block.divider]) init
      = init ++ l.flatMap
          (fun p => [project_maintainer_line p, meeting_logistics_block, Block.divider]) := by
  induction l generalizing init with
  | nil => simp
  | cons p t ih =>
    rw [List.foldl_cons, ih]
    simp [List.flatMap_cons, List.append_assoc]

/-- The meeting intro blocks contain no logistics block. -/
theorem count_logistics_intro (u : String) :
    (meeting_intro_blocks u).count meeting_logistics_block = 0 := by
  have hne : ("Hi <@" ++ u ++
     (">! 🌟 *Welcome to our open source community!* We" ++ apos ++
      "re excited you want to get involved.")) ≠ meeting_logistics_text := by
    apply string_ne_of_head _ _ 'H' '*'
    · rw [String.data_append, String.data_append]
      rfl
    · rfl
    · decide
  simp [meeting_intro_blocks, meeting_logistics_block, List.count_cons, hne]

/-- The meeting quick-links tail contains no logistics block, whatever the
organization info. -/
theorem count_logistics_tail (org : OrgInfo) :
    (meeting_tail_blocks org).count meeting_logistics_block = 0 := by
  have hq : ("🌟 *Quick Links*" : String) ≠ meeting_logistics_text := by decide
  simp [meeting_tail_blocks, meeting_logistics_block, List.count_cons, hq]

/-- The per-project segment of the meeting message contains exactly one
logistics block per project. -/
theorem count_logistics_mid (l : List (String × ProjectInfo)) :
    (l.flatMap
      (fun p => [project_maintainer_line p, meeting_logistics_block, Block.divider])).count
        meeting_logistics_block = l.length := by
  induction l with
  | nil => rfl
  | cons p t ih =>
    have hne : project_maintainer_line p ≠ meeting_logistics_block := by
      simp only [project_maintainer_line, meeting_logistics_block, ne_eq, Block.sect.injEq]
      exact maintainer_text_ne_logistics _ _
    have hd : Block.divider ≠ meeting_logistics_block := by decide
    simp [List.flatMap_cons, List.count_append, List.count_cons, ih, hne, hd]

/-- `addAt` always yields a string beginning with the at sign. -/
theorem addAt_head (m : String) : ∃ t, (addAt m).data = '@' :: t := by
  by_cases h : pyStartswith m "@" = true
  · obtain ⟨t, ht⟩ := List.isPrefixOf_iff_prefix.mp h
    refine ⟨t, ?_⟩
    have ha : addAt m = m := by simp [addAt, h]
    rw [ha, ← ht]
    rfl
  · refine ⟨m.data, ?_⟩
    have ha : addAt m = "@" ++ m := by simp [addAt, h]
    rw [ha, String.data_append]
    rfl

/-- Intercalating a nonempty list starts with its first element. -/
theorem intercalate_cons_exists (sep : List Char) (x : List Char) (xs : List (List Char)) :
    ∃ r, List.intercalate sep (x :: xs) = x ++ r := by
  cases xs with
  | nil => exact ⟨[], by simp [List.intercalate]⟩
  | cons y ys =>
    refine ⟨sep ++ (List.intersperse sep (y :: ys)).flatten, ?_⟩
    simp [List.intercalate]

/-- Formatting a nonempty maintainer list yields a string beginning with
the at sign. -/
theorem format_maintainers_head (a : String) (as : List String) :
    ∃ t, (format_maintainers (a :: as)).data = '@' :: t := by
  obtain ⟨t, ht⟩ := addAt_head a
  have hf : format_maintainers (a :: as) = pyJoin ", " ((a :: as).map addAt) := by
    simp [format_maintainers]
  obtain ⟨r, hr⟩ := intercalate_cons_exists (", ").data (addAt a).data
    ((as.map addAt).map String.data)
  refine ⟨t ++ r, ?_⟩
  rw [hf]
  show List.intercalate (", ").data (((a :: as).map addAt).map String.data) = '@' :: (t ++ r)
  rw [List.map_cons, List.map_cons, hr, ht]
  rfl

/-- Formatting a nonempty maintainer list never yields the empty-list
message (the result starts with an at sign, not with the letter N). -/
theorem format_maintainers_cons_ne (a : String) (as : List String) :
    format_maintainers (a :: as) ≠ "No maintainers assigned" := by
  obtain ⟨t, ht⟩ := format_maintainers_head a as
  apply string_ne_of_head _ _ '@' 'N'
  · rw [ht]
    rfl
  · rfl
  · decide

/-- Claim C1.  The claim says a slash-command request whose stripped
command equals "/contribute" returns the project composer's blocks as the
200 in_channel response.  The code disagrees: `create_project_blocks`
always raises NameError from the malformed f-string at app.py line 146, so
the route's catch-all answers with the 500 ephemeral apology instead (and
even absent that exception, the second `if/elif/else` chain at app.py
663-697 would reassign `blocks` to the unknown-command message, because
"/contribute" matches none of its cases).  This theorem evaluates the
handler at such a request and shows the 500 ephemeral response — in
particular the response is neither the project blocks nor the
unknown-command message. -/
theorem contribute_request_gets_ephemeral_500 (src : ConfigSource) (uid uname : String) :
    handle_slash_commands src
      [("command", "/contribute"), ("user_id", uid), ("user_name", uname)]
      = SlashResponse.serverError := rfl

/-- Claim C2.  The claim says dispatch never throws and always returns a
well-formed OutboundMessage for every command string.  The code disagrees
for the five project commands: composing them raises NameError from the
malformed f-string at app.py line 146, so the dispatch region throws and
the route degrades to the 500 ephemeral apology.  This theorem evaluates
dispatch and the handler at "/kubestellar" and exhibits the escaped
NameError and the resulting 500 response. -/
theorem project_command_dispatch_raises_nameerror (src : ConfigSource) (uid uname : String) :
    dispatch src "/kubestellar" (some uid) = Except.error (PyError.nameError "https") ∧
    handle_slash_commands src
      [("command", "/kubestellar"), ("user_id", uid), ("user_name", uname)]
      = SlashResponse.serverError := ⟨rfl, rfl⟩

/-- Claim C3.  For every maintainer list `l`: `format_maintainers l` is
the literal "No maintainers assigned" exactly when `l` is empty; for
nonempty `l` the result is the elements in original order, each sent
through `addAt`, joined by ", " — and `addAt` leaves entries already
starting with "@" unchanged, prepends a single "@" to the others, and
always yields a string starting with '@'. -/
theorem format_maintainers_spec (l : List String) :
    (format_maintainers l = "No maintainers assigned" ↔ l = []) ∧
    (l ≠ [] →
      format_maintainers l = pyJoin ", " (l.map addAt) ∧
      (∀ m, (pyStartswith m "@" = true → addAt m = m) ∧
            (pyStartswith m "@" = false → addAt m = "@" ++ m) ∧
            ∃ t, (addAt m).data = '@' :: t)) := by
  constructor
  · constructor
    · intro h
      cases l with
      | nil => rfl
      | cons a as => exact absurd h (format_maintainers_cons_ne a as)
    · intro h
      subst h
      rfl
  · intro hl
    constructor
    · cases l with
      | nil => exact absurd rfl hl
      | cons a as => simp [format_maintainers]
    · intro m
      refine ⟨fun h => by simp [addAt, h], fun h => by simp [addAt, h], addAt_head m⟩

/-- Witness for C3 at the concrete list ["bob"]. -/
theorem format_maintainers_spec_witness :
    format_maintainers ["bob"] = pyJoin ", " (["bob"].map addAt) :=
  ((format_maintainers_spec ["bob"]).2 (by decide)).1

/-- Claim C4.  For every project key K absent from the loaded config's
projects mapping, `get_project_info` returns the same value as for the key
"default" against the same config source; and when "default" is also
absent, it returns the empty mapping. -/
theorem get_project_info_absent_key_falls_back (src : ConfigSource) (K : String)
    (hK : (((load_maintainers_config src).projects.getD []).lookup K) = none) :
    get_project_info src K = get_project_info src "default" ∧
    ((((load_maintainers_config src).projects.getD []).lookup "default") = none →
      get_project_info src K = emptyProjectInfo) := by
  constructor
  · cases hd : ((load_maintainers_config src).projects.getD []).lookup "default" with
    | none => simp [get_project_info, hK, hd]
    | some v => simp [get_project_info, hK, hd]
  · intro hd
    simp [get_project_info, hK, hd]

/-- Witness for C4 at a concrete absent key against the built-in default
config. -/
theorem get_project_info_absent_key_falls_back_witness :
    get_project_info .missing "nosuchproject" = get_project_info .missing "default" :=
  (get_project_info_absent_key_falls_back .missing "nosuchproject" (by decide)).1

/-- Claim C5.  On a missing config source, `load_maintainers_config`
returns (rather than throws — it is a total function of the source state,
the `FileNotFoundError` being caught in the source) the built-in default
Config, whose "default" project has maintainers ["Andy Anderson"] and the
hardcoded docs and github URLs. -/
theorem load_config_missing_source_default :
    ((load_maintainers_config ConfigSource.missing).projects.getD []).lookup "default" =
      some ⟨none, some "https://docs.kubestellar.io/",
            some "https://github.com/kubestellar/kubestellar",
            none, some ["Andy Anderson"]⟩ := rfl

/-- Claim C6.  For every config source and user, the meeting composer's
output is the intro blocks, then — for each project in mapping order — one
maintainer line followed by one copy of the static logistics block (and a
divider), then the quick-links tail; in particular the output contains
exactly N logistics blocks for N projects. -/
theorem meeting_blocks_repeat_logistics_per_project (src : ConfigSource) (user_id : String) :
    create_meeting_blocks src user_id =
      meeting_intro_blocks user_id
        ++ (((load_maintainers_config src).projects.getD []).flatMap
              (fun p => [project_maintainer_line p, meeting_logistics_block, Block.divider]))
        ++ meeting_tail_blocks ((load_maintainers_config src).organization.getD emptyOrgInfo) ∧
    (create_meeting_blocks src user_id).count meeting_logistics_block
      = ((load_maintainers_config src).projects.getD []).length := by
  have h1 : create_meeting_blocks src user_id =
      meeting_intro_blocks user_id
        ++ (((load_maintainers_config src).projects.getD []).flatMap
              (fun p => [project_maintainer_line p, meeting_logistics_block, Block.divider]))
        ++ meeting_tail_blocks ((load_maintainers_config src).organization.getD emptyOrgInfo) := by
    simp only [create_meeting_blocks]
    rw [meeting_foldl_eq]
  refine ⟨h1, ?_⟩
  rw [h1]
  simp [List.count_append, count_logistics_intro, count_logistics_tail, count_logistics_mid]

/-- Claim C7, counterexample.  With the two-project scenario config, the
help output does NOT contain the plain line segments "Kubeflex: @alice"
and "Ui: No maintainers assigned": the composer renders the display name
inside mrkdwn bold markers, f"*{name}:* {maintainers}", so the colon is
followed by an asterisk, not by a space. -/
theorem help_scenario_plain_segments_absent :
    containsSegment (create_help_blocks helpScenarioConfig "U1") "Kubeflex: @alice" = false ∧
    containsSegment (create_help_blocks helpScenarioConfig "U1") "Ui: No maintainers assigned" = false := by
  constructor <;> decide

/-- Claim C7, amended.  With the two-project scenario config, the help
output contains the line segments "*Kubeflex:* @alice" and
"*Ui:* No maintainers assigned" (display names defaulting to the key,
underscores to spaces, title-cased, wrapped in bold markers). -/
theorem help_scenario_bold_segments_present :
    containsSegment (create_help_blocks helpScenarioConfig "U1") "*Kubeflex:* @alice" = true ∧
    containsSegment (create_help_blocks helpScenarioConfig "U1") "*Ui:* No maintainers assigned" = true := by
  constructor <;> decide

/-- Claim C8.  For every non-verification event body: a team_join event
whose user object has id "U123" performs exactly one outbound send call,
addressed to U123's DM channel "@U123", and the handler answers ok; a
member_joined_channel event performs zero send calls and the handler
answers ok. -/
theorem team_join_sends_one_dm_channel_join_sends_none (src : ConfigSource) (d : EventBody)
    (hv : d.type ≠ some "url_verification") :
    (∀ ev : SlackEvent, d.event = some ev → ev.type = some "team_join" →
       ev.user = some (UserVal.obj (some "U123")) →
       (handle_events src d).sends = [send_welcome_dm src "U123"] ∧
       (send_welcome_dm src "U123").channel = "@U123" ∧
       (handle_events src d).response = EventsResponse.ok) ∧
    (∀ ev : SlackEvent, d.event = some ev → ev.type = some "member_joined_channel" →
       (handle_events src d).sends = [] ∧
       (handle_events src d).response = EventsResponse.ok) := by
  constructor
  · intro ev hev ht hu
    refine ⟨?_, rfl, ?_⟩ <;> simp [handle_events, hv, hev, ht, hu]
  · intro ev hev ht
    constructor <;> simp [handle_events, hv, hev, ht]

/-- Witness for C8 at concrete team_join and member_joined_channel
events. -/
theorem team_join_sends_one_dm_channel_join_sends_none_witness :
    (handle_events .missing
        ⟨none, none, some ⟨some "team_join", some (UserVal.obj (some "U123")), none⟩⟩).sends
      = [send_welcome_dm .missing "U123"] ∧
    (handle_events .missing
        ⟨none, none, some ⟨some "member_joined_channel", some (UserVal.str "U9"), some "C1"⟩⟩).sends
      = [] :=
  ⟨((team_join_sends_one_dm_channel_join_sends_none .missing
      ⟨none, none, some ⟨some "team_join", some (UserVal.obj (some "U123")), none⟩⟩
      (by decide)).1 _ rfl rfl rfl).1,
   ((team_join_sends_one_dm_channel_join_sends_none .missing
      ⟨none, none, some ⟨some "member_joined_channel", some (UserVal.str "U9"), some "C1"⟩⟩
      (by decide)).2 _ rfl rfl).1⟩

/-- Claim C9.  A slash-command request whose form data has the fields
command, user_id and user_name passes validation whether or not channel_id
is present: it is not rejected with the 403 invalid-request response and
proceeds to dispatch. -/
theorem slash_request_without_channel_id_accepted (src : ConfigSource)
    (form : List (String × String))
    (hc : (form.lookup "command").isSome = true)
    (hu : (form.lookup "user_id").isSome = true)
    (hn : (form.lookup "user_name").isSome = true) :
    verify_slack_request form = true ∧
    handle_slash_commands src form ≠ SlashResponse.invalid := by
  have hv : verify_slack_request form = true := by
    simp [verify_slack_request, hc, hu, hn]
  refine ⟨hv, ?_⟩
  simp only [handle_slash_commands, hv, if_true]
  cases hd : dispatch src (pyStrip ((form.lookup "command").getD ""))
      (form.lookup "user_id") with
  | ok b => simp [hd]
  | error e => simp [hd]

/-- Witness for C9 at a concrete form carrying no channel_id. -/
theorem slash_request_without_channel_id_accepted_witness :
    verify_slack_request [("command", "/help"), ("user_id", "U1"), ("user_name", "bob")] = true ∧
    handle_slash_commands .missing
      [("command", "/help"), ("user_id", "U1"), ("user_name", "bob")] ≠ SlashResponse.invalid :=
  slash_request_without_channel_id_accepted .missing
    [("command", "/help"), ("user_id", "U1"), ("user_name", "bob")]
    (by decide) (by decide) (by decide)

/-- Claim C10.  A team_join event whose user object lacks an id, or whose
id is the empty string (Python's `if user_id:` is false for both), causes
zero outbound send calls, and the handler still answers ok. -/
theorem team_join_without_user_id_sends_nothing (src : ConfigSource) (d : EventBody)
    (ev : SlackEvent)
    (hv : d.type ≠ some "url_verification") (hev : d.event = some ev)
    (ht : ev.type = some "team_join")
    (hu : ev.user = none ∨ ev.user = some (UserVal.obj none) ∨
          ev.user = some (UserVal.obj (some ""))) :
    (handle_events src d).sends = [] ∧
    (handle_events src d).response = EventsResponse.ok := by
  rcases hu with hu | hu | hu <;>
    exact ⟨by simp [handle_events, hv, hev, ht, hu], by simp [handle_events, hv, hev, ht, hu]⟩

/-- Witness for C10 at a concrete team_join event with an empty user id. -/
theorem team_join_without_user_id_sends_nothing_witness :
    (handle_events .missing
        ⟨none, none, some ⟨some "team_join", some (UserVal.obj (some "")), none⟩⟩).sends = [] :=
  (team_join_without_user_id_sends_nothing .missing
    ⟨none, none, some ⟨some "team_join", some (UserVal.obj (some "")), none⟩⟩
    ⟨some "team_join", some (UserVal.obj (some "")), none⟩
    (by decide) rfl rfl (Or.inr (Or.inr rfl))).1
